import Mathlib

/-!
Verification of the bp-api-service background-removal orchestrator.

This file gives a shallow embedding, in Lean, of the parts of the Rust
service that the frozen claims speak about:

- the session registry (main.rs WebSocketConnections and api/ws_clients.rs
  WsClients),
- the task dispatch pipeline (api/task.rs: send, handle_ws_received_message,
  handle_process_image_command),
- the inbound worker-event pipeline (api/task.rs:
  handle_response_received_from_bp_server, handle_files_received_from_bp_server;
  clients/bp_request_client/handlers.rs: handle_response_received_from_server),
- the connection-manager send operations (clients/bp_request_client.rs
  BPRequestClient.send and clients/bp_request_client/mod.rs send_remove_task),
- file persistence of worker results (utils/save_utils.rs
  save_files_received_from_bp_server) and the path helpers it uses
  (utils/path_utils.rs).

Modelling conventions, used consistently below:

- JSON values are the inductive JVal; serde maps become association lists in
  field order.
- Asynchronous effects are made explicit: each handler is a pure function
  from a World (environment variables, readable files, the task table, the
  subscriber registry, the transport cell) to a World plus an Out record of
  observable outputs (frames written to the worker transport, messages sent
  to the requesting websocket, messages broadcast to group subscribers, and
  task keys read from the store).
- The persisted task store is modelled as an in-memory list; store lookups
  fail exactly by row-not-found. Transport-level store failures are external
  nondeterminism and are not modelled (no claim depends on them).
- Byte strings are lists of naturals; the wire codec (tej_protoc) is an
  external dependency, so an encoded frame is represented by the Frame value
  itself rather than its byte layout.
- Wall-clock values (timestamps) are passed in as explicit arguments.
- Rust PathBuf values are modelled as lists of path components; a stored
  path string is split on the slash character when it is used as a path.
-/

/-- Bytes of a file, modelled as a list of byte values. -/
abbrev Bytes := List Nat

/-- A named binary attachment of a worker-protocol frame
(tej_protoc protoc File). -/
structure PFile where
  name : String
  data : Bytes
deriving DecidableEq, Repr

/-- JSON values (serde_json Value), with objects as association lists. -/
inductive JVal where
  | null : JVal
  | jbool : Bool → JVal
  | num : Int → JVal
  | str : String → JVal
  | arr : List JVal → JVal
  | obj : List (String × JVal) → JVal
deriving Repr

namespace JVal

/-- Value.get on an object: first binding with the given key
(serde_json maps have unique keys). -/
def get (v : JVal) (k : String) : Option JVal :=
  match v with
  | .obj fields => (fields.find? (fun p => p.1 = k)).map (fun p => p.2)
  | _ => none

/-- Value.as_str: the payload of a string value, none otherwise. -/
def asStr : JVal → Option String
  | .str s => some s
  | _ => none

end JVal

/-- Option of String rendered the way serde serializes an Option field:
null when absent. -/
def optStrToJVal : Option String → JVal
  | none => JVal.null
  | some s => JVal.str s

/-- Hex-digit test used by the UUID format check. -/
def isHexDigit (c : Char) : Bool :=
  c.isDigit || ('a' ≤ c && c ≤ 'f') || ('A' ≤ c && c ≤ 'F')

/-- Uuid parse_str acceptance, modelled for the two formats the service
actually exchanges: the 36-character hyphenated form and the 32-character
simple form. -/
def isUuid (s : String) : Bool :=
  let cs := s.toList
  (cs.length = 36 &&
    (cs.enum.all (fun p =>
      if p.1 = 8 || p.1 = 13 || p.1 = 18 || p.1 = 23 then p.2 = '-'
      else isHexDigit p.2))) ||
  (cs.length = 32 && cs.all isHexDigit)

/-- Character-level split of a path string on the slash separator
(structural recursion so that concrete paths evaluate). -/
def splitOnSlashGo : List Char → List Char → List String
  | [], acc => [String.mk acc.reverse]
  | c :: rest, acc =>
      if c = '/' then String.mk acc.reverse :: splitOnSlashGo rest []
      else splitOnSlashGo rest (c :: acc)

/-- Path components of a stored path string (PathBuf iteration, with empty
components dropped). -/
def pathComponents (s : String) : List String :=
  (splitOnSlashGo s.toList []).filter (fun c => ¬ (c = ""))

/-- Character-wise lowercasing (Rust str to_lowercase on ASCII values). -/
def lowercase (s : String) : String :=
  String.mk (s.toList.map Char.toLower)

/-- Components joined back into the stored string form
(PathBuf to_string_lossy). -/
def joinPath (p : List String) : String :=
  String.intercalate "/" p

/-- path_utils file_path_from_relative_url: drops the last component of the
base path when it equals the first component of the relative url, then
appends all relative components. -/
def file_path_from_relative_url (path : List String) (baseRelativeUrl : List String) :
    List String :=
  let path' :=
    match path.getLast?, baseRelativeUrl.head? with
    | some lastPart, some firstPart =>
        if lastPart = firstPart then path.dropLast else path
    | _, _ => path
  path' ++ baseRelativeUrl

/-- Loop of path_utils relative_media_url_from_full_path: the index of the
last component at which the two paths still agreed, scanning from the front
and stopping at the first mismatch (0 when even the first components
differ). The first argument counts the iterations left in the 0..scan_range
loop, so it starts at scan_range while the index starts at 0. -/
def lastMatchedIndexGo (a b : List String) : Nat → Nat → Nat → Nat
  | 0, _, acc => acc
  | remaining + 1, i, acc =>
      if a.getD i "" = b.getD i "" then lastMatchedIndexGo a b remaining (i + 1) i
      else acc

/-- path_utils relative_media_url_from_full_path: keeps the suffix of the
full path from the last matched component on (note the source keeps one
shared component). -/
def relative_media_url_from_full_path (mediaRoot fullPath : List String) :
    List String :=
  let scanRange := min mediaRoot.length fullPath.length
  fullPath.drop (lastMatchedIndexGo mediaRoot fullPath scanRange 0 0)

/-- Rust file_stem of a file name: the portion before the last dot, except
that a lone leading dot does not start an extension. -/
def fileStem (name : String) : String :=
  let cs := name.toList
  let dotIdxs := (cs.enum.filter (fun p => p.2 = '.')).map (fun p => p.1)
  match dotIdxs.getLast? with
  | none => name
  | some 0 => name
  | some i => String.mk (cs.take i)

/-- Row of the background_remover_task table (db/mod.rs models
BackgroundRemoverTask). Columns the claims never touch (serial id, creation
date, country, user identifier, preview of the original) are carried only
where a claim needs them; keys and groups are UUID strings. -/
structure BackgroundRemoverTask where
  key : String
  task_group : String
  original_image_path : String
  preview_original_image_path : Option String
  mask_image_path : Option String
  processed_image_path : Option String
  preview_processed_image_path : Option String
  processing : Option Bool
  logs : Option JVal
deriving Repr

/-- UpdateBackgroundRemoverTask: the partial row written by update_task. -/
structure UpdateBackgroundRemoverTask where
  key : String
  mask_image_path : String
  processed_image_path : String
  preview_processed_image_path : String
  logs : Option JVal
deriving Repr

/-- BackgroundRemoverTask.fetch: select by key, row-not-found as none. -/
def fetchTask (db : List BackgroundRemoverTask) (key : String) :
    Option BackgroundRemoverTask :=
  db.find? (fun t => t.key = key)

/-- BackgroundRemoverTask.update_processing_state: set the processing column
of every row with the given key. -/
def updateProcessingState (db : List BackgroundRemoverTask) (key : String)
    (state : Bool) : List BackgroundRemoverTask :=
  db.map (fun t => if t.key = key then { t with processing := some state } else t)

/-- BackgroundRemoverTask.update_task: set the three result path columns and
the logs column of every row with the given key. -/
def updateTaskRecord (db : List BackgroundRemoverTask)
    (u : UpdateBackgroundRemoverTask) : List BackgroundRemoverTask :=
  db.map (fun t =>
    if t.key = u.key then
      { t with
        mask_image_path := some u.mask_image_path
        processed_image_path := some u.processed_image_path
        preview_processed_image_path := some u.preview_processed_image_path
        logs := u.logs }
    else t)

/-- Environment variables the pipeline reads. -/
structure Env where
  mediaRoot : Option String
  host : Option String
  processHard : Option String
deriving Repr

/-- PROCESS_HARD env var, defaulted to false and compared lowercased
(task.rs lines 162 to 163). -/
def isProcessHard (env : Env) : Bool :=
  lowercase (env.processHard.getD "false") = "true"

/-- Dispatch condition of task.rs line 168: hard override or the stored
processing flag (defaulted to false) being unset. -/
def needsProcessing (env : Env) (t : BackgroundRemoverTask) : Bool :=
  isProcessHard env || !(t.processing.getD false)

/-- path_utils full_media_url_from_relative_path with the https scheme fixed
by the serializer. -/
def fullMediaUrl (host : String) (relativeUrl : String) : String :=
  "https" ++ "://" ++ host ++ "/" ++ relativeUrl

/-- Optional path serialized as a full media url or null. -/
def optUrl (host : String) : Option String → JVal
  | none => JVal.null
  | some p => JVal.str (fullMediaUrl host p)

/-- BackgroundRemoverTask serialize_full: the serde serializer of
db/mod.rs, which rewrites path columns into full media urls and fails when
the HOST env var is absent. -/
def serializeTaskFull (env : Env) (t : BackgroundRemoverTask) :
    Except Unit JVal :=
  match env.host with
  | none => Except.error ()
  | some host =>
      Except.ok (JVal.obj
        [ ("key", JVal.str t.key),
          ("task_group", JVal.str t.task_group),
          ("original_image", JVal.str (fullMediaUrl host t.original_image_path)),
          ("preview_original_image", optUrl host t.preview_original_image_path),
          ("processed_image", optUrl host t.processed_image_path),
          ("preview_processed_image", optUrl host t.preview_processed_image_path),
          ("mask_image", optUrl host t.mask_image_path),
          ("processing", match t.processing with
            | none => JVal.null
            | some b => JVal.jbool b),
          ("logs", match t.logs with
            | none => JVal.null
            | some v => v) ])

/-- BackgroundRemoverTask serialize: serialize_full with the task_id,
country and logs fields removed. -/
def serializeTask (env : Env) (t : BackgroundRemoverTask) : Except Unit JVal :=
  match serializeTaskFull env t with
  | Except.error e => Except.error e
  | Except.ok v =>
      match v with
      | JVal.obj fields =>
          Except.ok (JVal.obj (fields.filter (fun p =>
            ¬ (p.1 = "task_id" || p.1 = "country" || p.1 = "logs"))))
      | _ => Except.error ()

/-- One outbound or inbound unit of the worker protocol: attachments plus a
JSON message payload. The byte-level encoding is the external codec, so a
written frame is recorded as this value. -/
structure Frame where
  files : List PFile
  message : JVal
deriving Repr

/-- Observable outputs of one handler invocation. -/
structure Out where
  workerFrames : List Frame := []
  callerMsgs : List JVal := []
  groupMsgs : List (String × JVal) := []
  dbReads : List String := []
deriving Repr

/-- Registry of live websocket sessions: group key to subscriber uids
(api/ws_clients.rs WsClients, main.rs WebSocketConnections). -/
abbrev Registry := List (String × List String)

/-- HashMap get on the registry: value of the first entry with the key. -/
def lookupGroup (m : Registry) (g : String) : Option (List String) :=
  (m.find? (fun e => e.1 = g)).map (fun e => e.2)

/-- HashMap in-place value replacement for a key. -/
def setGroup (m : Registry) (g : String) (v : List String) : Registry :=
  m.map (fun e => if e.1 = g then (g, v) else e)

/-- HashMap remove of a key. -/
def eraseGroup (m : Registry) (g : String) : Registry :=
  m.filter (fun e => ¬ (e.1 = g))

/-- WsClients.get_all: the subscribers of a group, empty when the group has
no entry. -/
def getAllSubscribers (m : Registry) (g : String) : List String :=
  (lookupGroup m g).getD []

/-- Mutable state visible to the handlers. The transport cell is the shared
stream holder of the connection manager (present exactly when connected);
sendTimedOut marks a dispatch whose 12-second send window elapsed. -/
structure World where
  env : Env
  fsFiles : List (List String × Bytes)
  db : List BackgroundRemoverTask
  subscribers : Registry
  streamHolder : Option Unit
  sendTimedOut : Bool
deriving Repr

/-- Read of a source file from the media directory. -/
def readFsFile (fs : List (List String × Bytes)) (p : List String) : Option Bytes :=
  (fs.find? (fun e => e.1 = p)).map (fun e => e.2)

/-- Body of the while loop of main.rs WebSocketConnections.unsubscribe:
scans by index, removes a handle whose uid matches, and increments the index
afterwards in every iteration (also right after a removal). -/
def unsubscribeLoop (ws : List String) (uid : String) (index : Nat) : List String :=
  if h : index < ws.length then
    if ws.get ⟨index, h⟩ = uid then unsubscribeLoop (ws.eraseIdx index) uid (index + 1)
    else unsubscribeLoop ws uid (index + 1)
  else ws
termination_by ws.length - index
decreasing_by
  · have := List.length_eraseIdx_of_lt h
    omega
  · omega

/-- main.rs WebSocketConnections.unsubscribe: runs the index loop on the
group entry when present; the entry itself is never removed from the map. -/
def wsConnections_unsubscribe (sessions : Registry) (task_group uid : String) :
    Registry :=
  match lookupGroup sessions task_group with
  | none => sessions
  | some ws => setGroup sessions task_group (unsubscribeLoop ws uid 0)

/-- Reverse index loop of api/ws_clients.rs WsClients.remove: walks indices
from high to low, removing every handle whose uid matches. -/
def wsClientsRemoveLoop (ws : List String) (uid : String) (i : Nat) : List String :=
  match i with
  | 0 => ws
  | j + 1 =>
      let ws' :=
        if h : j < ws.length then
          if ws.get ⟨j, h⟩ = uid then ws.eraseIdx j else ws
        else ws
      wsClientsRemoveLoop ws' uid j

/-- api/ws_clients.rs WsClients.remove: removes every handle of the group
with the given uid via the reverse loop, then removes the group entry when
its list became empty. -/
def wsClients_remove (m : Registry) (task_group uid : String) : Registry :=
  match lookupGroup m task_group with
  | none => m
  | some websockets =>
      let websockets' := wsClientsRemoveLoop websockets uid websockets.length
      if websockets'.length = 0 then eraseGroup m task_group
      else setGroup m task_group websockets'

/-- Response of api/shortcuts.rs internal_server_error. -/
def internalServerErrorMsg : JVal :=
  JVal.obj
    [ ("status", JVal.str "failed"),
      ("status_code", JVal.str "internal_server_error"),
      ("message", JVal.str "Internal Server Error") ]

/-- Not-found response of handle_process_image_command. -/
def notFoundMsg : JVal :=
  JVal.obj
    [ ("status", JVal.str "failed"),
      ("status_code", JVal.str "not_found"),
      ("message", JVal.str "Image with this key does not exist.") ]

/-- Ownership rejection of handle_process_image_command (task.rs lines 151
to 160). -/
def permissionErrorMsg : JVal :=
  JVal.obj
    [ ("status", JVal.str "failed"),
      ("status_code", JVal.str "permission_error"),
      ("message",
        JVal.str "This task_group does not have permission to process image with this key.") ]

/-- Rejection for a websocket text message that is not JSON. -/
def invalidMessageFormatMsg : JVal :=
  JVal.obj
    [ ("status", JVal.str "failed"),
      ("status_code", JVal.str "invalid_message_format"),
      ("message", JVal.str "Not a valid message format. Expected type JSON.") ]

/-- Rejection for a websocket message whose key is not a UUID. -/
def invalidKeyFormatMsg : JVal :=
  JVal.obj
    [ ("status", JVal.str "failed"),
      ("status_code", JVal.str "invalid_message_format"),
      ("message", JVal.str "Invalid key format.") ]

/-- Result notification sent on the synchronous already-processed path and
broadcast after a successful processing cycle. -/
def resultMsg (data : JVal) : JVal :=
  JVal.obj
    [ ("status", JVal.str "success"),
      ("status_code", JVal.str "result"),
      ("data", data) ]

/-- clients/bp_request_client.rs BPRequestClient.send: with a stream
installed the encoded frame is written; with the holder empty it returns the
not-connected error at once, writing nothing. -/
def bpClientSend (streamHolder : Option Unit) (files : List PFile)
    (message : JVal) : List Frame × Except String Unit :=
  match streamHolder with
  | some _ => ([Frame.mk files message], Except.ok ())
  | none => ([], Except.error "BP Request client not connected to server.")

/-- Message payload of clients/bp_request_client/mod.rs send_remove_task
(RequestRemoveTask); the wall-clock timestamp is an explicit argument. -/
def removeTaskMessage (taskId : String) (now : Int) : JVal :=
  JVal.obj
    [ ("task_id", JVal.str taskId),
      ("timestamps", JVal.obj
        [ ("request_client_to_bp_server_sent", JVal.num now) ]) ]

/-- clients/bp_request_client/mod.rs BPRequestClient.send_remove_task:
extracts the file name, reads the file, then takes the stream lock; with the
cell empty it returns the not-connected error without writing. -/
def sendRemoveTask (streamHolder : Option Unit)
    (fs : List (List String × Bytes)) (taskId : String) (now : Int)
    (filePath : List String) : List Frame × Except String Unit :=
  match filePath.getLast? with
  | none => ([], Except.error "Failed to extract filename from path")
  | some filename =>
      match readFsFile fs filePath with
      | none => ([], Except.error "Failed to read bytes from file")
      | some fileBytes =>
          match streamHolder with
          | some _ =>
              ([Frame.mk [PFile.mk filename fileBytes] (removeTaskMessage taskId now)],
                Except.ok ())
          | none => ([], Except.error "BP request client not connected to BP Server")

/-- api/task.rs send: builds the task_id payload, requires MEDIA_ROOT, reads
the source image, sends one frame with the single original.jpg attachment
under a 12-second timeout. Only the timeout and the earlier io errors
propagate: the result of the transport send itself is printed and dropped,
and Ok is returned regardless (task.rs lines 54 to 61). -/
def taskSend (w : World) (task : BackgroundRemoverTask) :
    List Frame × Except String Unit :=
  let message := JVal.obj [("task_id", JVal.str task.key)]
  match w.env.mediaRoot with
  | none => ([], Except.error "MEDIA_ROOT environment variable is missing.")
  | some mediaRoot =>
      let originalImageFilePath :=
        file_path_from_relative_url (pathComponents mediaRoot)
          (pathComponents task.original_image_path)
      match readFsFile w.fsFiles originalImageFilePath with
      | none => ([], Except.error "failed to open original image file")
      | some buffer =>
          let file := PFile.mk "original.jpg" buffer
          if w.sendTimedOut then ([], Except.error "send timed out")
          else
            let sent := bpClientSend w.streamHolder [file] message
            (sent.1, Except.ok ())

/-- api/task.rs handle_process_image_command: fetch, ownership gate,
dispatch decision, synchronous result or send-and-mark-processing. -/
def handle_process_image_command (w : World) (task_group : String)
    (key : String) : World × Out :=
  match fetchTask w.db key with
  | none => (w, { dbReads := [key], callerMsgs := [notFoundMsg] })
  | some inst =>
      if ¬ (inst.task_group = task_group) then
        (w, { dbReads := [key], callerMsgs := [permissionErrorMsg] })
      else
        if !(needsProcessing w.env inst) then
          match serializeTask w.env inst with
          | Except.error _ =>
              (w, { dbReads := [key], callerMsgs := [internalServerErrorMsg] })
          | Except.ok serialized =>
              (w, { dbReads := [key], callerMsgs := [resultMsg serialized] })
        else
          let sent := taskSend w inst
          match sent.2 with
          | Except.ok _ =>
              ({ w with db := updateProcessingState w.db inst.key true },
                { dbReads := [key], workerFrames := sent.1 })
          | Except.error _ =>
              (w, { dbReads := [key], workerFrames := sent.1 })

/-- api/task.rs handle_ws_received_message on a text message, taking the
serde parse result of the text (none when the text is not valid JSON): bad
JSON is rejected, a missing or non-string key falls through silently, a
non-UUID key is rejected, and otherwise the process command runs. -/
def handle_ws_received_message (w : World) (task_group : String)
    (parsed : Option JVal) : World × Out :=
  match parsed with
  | none => (w, { callerMsgs := [invalidMessageFormatMsg] })
  | some json =>
      match json.get "key" with
      | none => (w, {})
      | some keyVal =>
          match keyVal.asStr with
          | none => (w, {})
          | some keyStr =>
              if isUuid keyStr then
                handle_process_image_command w task_group keyStr
              else (w, { callerMsgs := [invalidKeyFormatMsg] })

/-- Deserialized worker response (api/task.rs BPResponse): task_id must
parse as a UUID, status and status_code are required strings, message and
timestamps are optional. -/
structure BPResponse where
  task_id : String
  status : String
  status_code : String
  message : Option String
  timestamps : Option JVal
deriving Repr

/-- Serde decoding of an Option String field: absent or null gives none, a
string gives some, any other value is a type error. -/
def parseOptString : Option JVal → Option (Option String)
  | none => some none
  | some JVal.null => some none
  | some (JVal.str s) => some (some s)
  | some _ => none

/-- serde_json from_value for BPResponse. -/
def parseBPResponse (v : JVal) : Option BPResponse :=
  match (v.get "task_id").bind JVal.asStr,
        (v.get "status").bind JVal.asStr,
        (v.get "status_code").bind JVal.asStr with
  | some taskId, some status, some statusCode =>
      if isUuid taskId then
        match parseOptString (v.get "message") with
        | none => none
        | some message =>
            some
              { task_id := taskId, status := status, status_code := statusCode,
                message := message, timestamps := v.get "timestamps" }
      else none
  | _, _, _ => none

/-- Broadcast payload of the non-success branch of
handle_response_received_from_bp_server (task.rs lines 257 to 264): the
worker status, status_code and message relayed verbatim. -/
def echoMsg (bp : BPResponse) : JVal :=
  JVal.obj
    [ ("status", JVal.str bp.status),
      ("status_code", JVal.str bp.status_code),
      ("message", optStrToJVal bp.message) ]

/-- utils/path_utils.rs generate_save_path for a result image kind: media
root, the background-remover folder, the task key, the kind folder and the
file name, passed through file_path_from_relative_url. -/
def generateSavePath (mediaRoot : String) (key : String) (kindDir : String)
    (filename : String) : List String :=
  let relativeUrl :=
    pathComponents mediaRoot ++ ["background-remover", key, kindDir, filename]
  file_path_from_relative_url (pathComponents mediaRoot) relativeUrl

/-- Result of utils/save_utils.rs save_files_received_from_bp_server: the
three absolute save paths together with the write operations performed, in
order (path, bytes). -/
structure SaveResult where
  transparentPath : List String
  maskPath : List String
  previewPath : List String
  writes : List (List String × Bytes)
deriving Repr

/-- utils/save_utils.rs save_files_received_from_bp_server: checks the
minimum attachment count (two when fake processed, three otherwise), then
saves the transparent image from attachment 0, the mask from attachment 1
and the preview again from attachment 0 (source lines 45 to 47: the third
attachment is never read). -/
def save_files_received_from_bp_server (env : Env)
    (inst : BackgroundRemoverTask) (files : List PFile)
    (isFakeProcessed : Bool) : Except String SaveResult :=
  if isFakeProcessed ∧ files.length < 2 then
    Except.error "Minimum 2 files required for fake processed."
  else if ¬ isFakeProcessed ∧ files.length < 3 then
    Except.error "Minimum 3 files required."
  else
    match files with
    | f0 :: f1 :: _ =>
        let filenameWithoutExtension :=
          match (pathComponents inst.original_image_path).getLast? with
          | some lastComp => fileStem lastComp
          | none => fileStem "image.jpg"
        let pngFilename := filenameWithoutExtension ++ ".png"
        match env.mediaRoot with
        | none => Except.error "MEDIA_ROOT environment variable is missing."
        | some mediaRoot =>
            let transparentPath :=
              generateSavePath mediaRoot inst.key "transparent" pngFilename
            let maskPath :=
              generateSavePath mediaRoot inst.key "mask" pngFilename
            let previewPath :=
              generateSavePath mediaRoot inst.key "preview-transparent" pngFilename
            Except.ok
              { transparentPath := transparentPath, maskPath := maskPath,
                previewPath := previewPath,
                writes :=
                  [ (transparentPath, f0.data),
                    (maskPath, f1.data),
                    (previewPath, f0.data) ] }
    | _ => Except.error "Minimum 2 files required for fake processed."

/-- Broadcast of the generic internal server error to every subscriber of a
group (task.rs broadcast_internal_server_error). -/
def broadcastISE (w : World) (task_group : String) : Out :=
  { groupMsgs :=
      (getAllSubscribers w.subscribers task_group).map
        (fun h => (h, internalServerErrorMsg)) }

/-- api/task.rs handle_files_received_from_bp_server: save the attachments,
convert the save paths to relative media urls, write the result paths and
logs, clear the processing flag, re-fetch the canonical record, serialize it
and broadcast the result to every subscriber of the task group. Failures of
the store itself are external and not modelled; the env-dependent failure
branches (save error, missing MEDIA_ROOT, missing HOST during
serialization) each broadcast the generic internal error as in the source. -/
def handle_files_received_from_bp_server (w : World)
    (inst : BackgroundRemoverTask) (files : List PFile)
    (isFakeProcessed : Bool) : World × Out :=
  match save_files_received_from_bp_server w.env inst files isFakeProcessed with
  | Except.error _ => (w, broadcastISE w inst.task_group)
  | Except.ok saved =>
      match w.env.mediaRoot with
      | none => (w, broadcastISE w inst.task_group)
      | some mediaRoot =>
          let mediaRootParts := pathComponents mediaRoot
          let relativeMask :=
            relative_media_url_from_full_path mediaRootParts saved.maskPath
          let relativeTransparent :=
            relative_media_url_from_full_path mediaRootParts saved.transparentPath
          let relativePreview :=
            relative_media_url_from_full_path mediaRootParts saved.previewPath
          let updateTask : UpdateBackgroundRemoverTask :=
            { key := inst.key, logs := inst.logs,
              mask_image_path := joinPath relativeMask,
              processed_image_path := joinPath relativeTransparent,
              preview_processed_image_path := joinPath relativePreview }
          let db1 := updateTaskRecord w.db updateTask
          let db2 := updateProcessingState db1 inst.key false
          let w' := { w with db := db2 }
          match fetchTask db2 inst.key with
          | none => (w', broadcastISE w' inst.task_group)
          | some freshInstance =>
              match serializeTask w.env freshInstance with
              | Except.error _ => (w', broadcastISE w' freshInstance.task_group)
              | Except.ok serialized =>
                  (w',
                    { groupMsgs :=
                        (getAllSubscribers w'.subscribers freshInstance.task_group).map
                          (fun h => (h, resultMsg serialized)) })

/-- api/task.rs handle_response_received_from_bp_server: decode the
BPResponse (log and discard on failure), fetch the task (log and discard on
failure), then either run the success file handler or relay the worker
fields verbatim to every subscriber of the task group. -/
def handle_response_received_from_bp_server (w : World) (files : List PFile)
    (message : JVal) : World × Out :=
  match parseBPResponse message with
  | none => (w, {})
  | some bp =>
      match fetchTask w.db bp.task_id with
      | none => (w, { dbReads := [bp.task_id] })
      | some inst =>
          if bp.status = "success" then
            let isFakeProcessed := bp.status_code = "fake_process_completed"
            let r := handle_files_received_from_bp_server w inst files isFakeProcessed
            (r.1, { r.2 with dbReads := bp.task_id :: r.2.dbReads })
          else
            (w,
              { dbReads := [bp.task_id],
                groupMsgs :=
                  (getAllSubscribers w.subscribers inst.task_group).map
                    (fun h => (h, echoMsg bp)) })

/-- Outcome of the protocol-validation layer of
clients/bp_request_client/handlers.rs handle_response_received_from_server:
either the handler task panics, or the event is discarded with a log line,
or control is dispatched to the sub-handler selected by the status. -/
inductive ServerDispatch where
  | panics : ServerDispatch
  | discard : ServerDispatch
  | successResult : String → ServerDispatch
  | progressUpdate : String → ServerDispatch
  | failedResult : String → ServerDispatch
  | unknownLogged : String → ServerDispatch
deriving DecidableEq, Repr

/-- clients/bp_request_client/handlers.rs handle_response_received_from_server
(lines 20 to 60), on the serde parse result of the message bytes (none when
the bytes are not valid JSON). Line 25 of the source unwraps that parse, so
an invalid payload panics the handler task; a missing or non-string status,
a missing or non-string task_id, and a task_id that is not a UUID are each
logged and discarded; otherwise the status selects the sub-handler, with
unrecognized statuses only logged. -/
def handlers_handle_response_received_from_server (parsed : Option JVal) :
    ServerDispatch :=
  match parsed with
  | none => ServerDispatch.panics
  | some v =>
      match (v.get "status").bind JVal.asStr with
      | none => ServerDispatch.discard
      | some status =>
          match (v.get "task_id").bind JVal.asStr with
          | none => ServerDispatch.discard
          | some taskIdStr =>
              if isUuid taskIdStr then
                if status = "success" then ServerDispatch.successResult taskIdStr
                else if status = "progress_update" then
                  ServerDispatch.progressUpdate taskIdStr
                else if status = "failed" then ServerDispatch.failedResult taskIdStr
                else ServerDispatch.unknownLogged taskIdStr
              else ServerDispatch.discard

/-- Sample task key (hyphenated UUID form). -/
def U1 : String := "00000000-0000-0000-0000-000000000000"

/-- Sample owning group. -/
def G1 : String := "11111111-1111-1111-1111-111111111111"

/-- A second group, distinct from the owning group. -/
def G2 : String := "22222222-2222-2222-2222-222222222222"

/-- A freshly uploaded task: no results yet, processing flag false. -/
def sampleTask : BackgroundRemoverTask :=
  { key := U1, task_group := G1, original_image_path := "media/img.jpg",
    preview_original_image_path := none, mask_image_path := none,
    processed_image_path := none, preview_processed_image_path := none,
    processing := some false, logs := none }

/-- Environment with media root and host configured and no hard-reprocess
override. -/
def sampleEnv : Env :=
  { mediaRoot := some "media", host := some "example.com", processHard := none }

/-- A world holding the sample task, its readable source image, two
subscribers of the owning group and a connected transport. -/
def sampleWorld : World :=
  { env := sampleEnv,
    fsFiles := [(["media", "img.jpg"], [7, 7, 7])],
    db := [sampleTask],
    subscribers := [(G1, ["sub1", "sub2"])],
    streamHolder := some (),
    sendTimedOut := false }

/-- The sample world with no transport installed. -/
def disconnectedWorld : World := { sampleWorld with streamHolder := none }

/-- The sample world with the stored processing flag set. -/
def processedWorld : World :=
  { sampleWorld with db := [{ sampleTask with processing := some true }] }

/-- A success event for the sample task as the worker sends it. -/
def successMsg : JVal :=
  JVal.obj
    [ ("task_id", JVal.str U1),
      ("status", JVal.str "success"),
      ("status_code", JVal.str "done"),
      ("timestamps", JVal.obj []) ]

/-- A failed event for the sample task carrying a worker-internal detail in
its message field. -/
def failedMsg : JVal :=
  JVal.obj
    [ ("task_id", JVal.str U1),
      ("status", JVal.str "failed"),
      ("status_code", JVal.str "bp_error"),
      ("message", JVal.str "boom") ]

/-- An event with an unrecognized status for the sample task, carrying the
same worker-internal detail. -/
def weirdMsg : JVal :=
  JVal.obj
    [ ("task_id", JVal.str U1),
      ("status", JVal.str "weird_value"),
      ("status_code", JVal.str "x"),
      ("message", JVal.str "boom") ]

/-- Serialized view of a task produced by serializeTask when the HOST env
var holds the given host: the full serializer output minus the removed
fields. -/
def serializedView (host : String) (t : BackgroundRemoverTask) : JVal :=
  JVal.obj
    [ ("key", JVal.str t.key),
      ("task_group", JVal.str t.task_group),
      ("original_image", JVal.str (fullMediaUrl host t.original_image_path)),
      ("preview_original_image", optUrl host t.preview_original_image_path),
      ("processed_image", optUrl host t.processed_image_path),
      ("preview_processed_image", optUrl host t.preview_processed_image_path),
      ("mask_image", optUrl host t.mask_image_path),
      ("processing", match t.processing with
        | none => JVal.null
        | some b => JVal.jbool b) ]

/-- Serialization succeeds exactly with the serialized view once HOST is
configured. -/
theorem serializeTask_ok (env : Env) (host : String) (t : BackgroundRemoverTask)
    (h : env.host = some host) :
    serializeTask env t = Except.ok (serializedView host t) := by
  unfold serializeTask serializeTaskFull serializedView
  rw [h]
  rfl

/-- Witness for serializeTask_ok at the sample task. -/
theorem serializeTask_ok_witness :
    serializeTask sampleEnv sampleTask = Except.ok (serializedView "example.com" sampleTask) :=
  serializeTask_ok sampleEnv "example.com" sampleTask rfl

/-- Lookup of a different group is unchanged by setGroup. -/
theorem lookupGroup_setGroup_ne (m : Registry) (g : String) (v : List String)
    (g' : String) (h : ¬ (g' = g)) :
    lookupGroup (setGroup m g v) g' = lookupGroup m g' := by
  induction m with
  | nil => rfl
  | cons e es ih =>
      unfold lookupGroup setGroup
      simp only [List.map_cons]
      by_cases he : e.1 = g
      · rw [if_pos he]
        rw [List.find?_cons_of_neg _ (by simp; exact fun hx => h hx.symm),
          List.find?_cons_of_neg _ (by simp [he]; exact fun hx => h (he ▸ hx.symm))]
        exact ih
      · rw [if_neg he]
        by_cases hp : e.1 = g'
        · rw [List.find?_cons_of_pos _ (by simp [hp]),
            List.find?_cons_of_pos _ (by simp [hp])]
        · rw [List.find?_cons_of_neg _ (by simp [hp]),
            List.find?_cons_of_neg _ (by simp [hp])]
          exact ih

/-- Lookup of a different group is unchanged by eraseGroup. -/
theorem lookupGroup_eraseGroup_ne (m : Registry) (g g' : String)
    (h : ¬ (g' = g)) :
    lookupGroup (eraseGroup m g) g' = lookupGroup m g' := by
  induction m with
  | nil => rfl
  | cons e es ih =>
      unfold lookupGroup eraseGroup
      simp only [List.filter_cons]
      by_cases he : e.1 = g
      · simp only [he, decide_True, not_true_eq_false, decide_False, if_neg]
        rw [List.find?_cons_of_neg _ (by simp [he]; exact fun hx => h (he ▸ hx.symm))]
        exact ih
      · simp only [he, decide_False, not_false_eq_true, decide_True, if_pos]
        by_cases hp : e.1 = g'
        · rw [List.find?_cons_of_pos _ (by simp [hp]),
            List.find?_cons_of_pos _ (by simp [hp])]
        · rw [List.find?_cons_of_neg _ (by simp [hp]),
            List.find?_cons_of_neg _ (by simp [hp])]
          exact ih

/-- Lookup of the erased group itself gives none. -/
theorem lookupGroup_eraseGroup_self (m : Registry) (g : String) :
    lookupGroup (eraseGroup m g) g = none := by
  induction m with
  | nil => rfl
  | cons e es ih =>
      unfold lookupGroup eraseGroup
      simp only [List.filter_cons]
      by_cases he : e.1 = g
      · simp only [he, decide_True, not_true_eq_false, decide_False, if_neg]
        exact ih
      · simp only [he, decide_False, not_false_eq_true, decide_True, if_pos]
        rw [List.find?_cons_of_neg _ (by simp [he])]
        exact ih

/-- Lookup of the set group gives the new value whenever the group was
present. -/
theorem lookupGroup_setGroup_self (m : Registry) (g : String) (v hs : List String)
    (h : lookupGroup m g = some hs) :
    lookupGroup (setGroup m g v) g = some v := by
  induction m with
  | nil => simp [lookupGroup] at h
  | cons e es ih =>
      unfold lookupGroup setGroup
      simp only [List.map_cons]
      by_cases he : e.1 = g
      · rw [if_pos he, List.find?_cons_of_pos _ (by simp)]
        rfl
      · rw [if_neg he, List.find?_cons_of_neg _ (by simp [he])]
        unfold lookupGroup setGroup at ih
        apply ih
        unfold lookupGroup at h
        rw [List.find?_cons_of_neg _ (by simp [he])] at h
        exact h

/-- Invariant of the reverse removal loop: positions below the cursor have
been filtered by uid, positions at and above it are untouched. -/
theorem wsClientsRemoveLoop_take_drop (uid : String) :
    ∀ (i : Nat) (ws : List String), i ≤ ws.length →
      wsClientsRemoveLoop ws uid i =
        (ws.take i).filter (fun x => ¬ (x = uid)) ++ ws.drop i := by
  intro i
  induction i with
  | zero => intro ws _; simp [wsClientsRemoveLoop]
  | succ j ih =>
      intro ws hle
      have hj : j < ws.length := Nat.lt_of_succ_le hle
      unfold wsClientsRemoveLoop
      rw [dif_pos hj]
      by_cases hx : ws.get ⟨j, hj⟩ = uid
      · rw [if_pos hx]
        have hlen : (ws.eraseIdx j).length = ws.length - 1 :=
          List.length_eraseIdx_of_lt hj
        have hle' : j ≤ (ws.eraseIdx j).length := by omega
        rw [ih (ws.eraseIdx j) hle']
        have htake : (ws.eraseIdx j).take j = ws.take j := by
          rw [List.eraseIdx_eq_take_drop_succ]
          exact List.take_left' (by simp [List.length_take]; omega)
        have hdrop : (ws.eraseIdx j).drop j = ws.drop (j + 1) := by
          rw [List.eraseIdx_eq_take_drop_succ]
          exact List.drop_left' (by simp [List.length_take]; omega)
        rw [htake, hdrop, List.take_succ, List.getElem?_eq_getElem hj]
        simp only [List.get_eq_getElem] at hx
        simp [List.filter_append, hx]
      · rw [if_neg hx]
        rw [ih ws (Nat.le_of_lt hj)]
        have hdrop : ws.drop j = ws[j] :: ws.drop (j + 1) :=
          List.drop_eq_getElem_cons hj
        simp only [List.get_eq_getElem] at hx
        rw [List.take_succ, List.getElem?_eq_getElem hj, Option.toList_some,
          List.filter_append, hdrop]
        have hkeep :
            List.filter (fun x => ¬ (x = uid)) [ws[j]] = [ws[j]] := by
          simp [hx]
        rw [hkeep, List.append_assoc, List.singleton_append]

/-- The full reverse loop is exactly a filter by uid. -/
theorem wsClientsRemoveLoop_eq_filter (ws : List String) (uid : String) :
    wsClientsRemoveLoop ws uid ws.length =
      ws.filter (fun x => ¬ (x = uid)) := by
  rw [wsClientsRemoveLoop_take_drop uid ws.length ws (Nat.le_refl _)]
  simp

/-- Claim C2 counterexample: two cloned handles sharing uid a, adjacent in
the same group. One call of the main.rs unsubscribe removes only the first
clone (the index advances past the element that slid into the removed slot)
and the group entry stays in the registry with the surviving clone, so the
claim that every matching handle is removed and the emptied entry dropped
fails at this input. -/
theorem C2_unsubscribe_counterexample :
    wsConnections_unsubscribe [("g", ["a", "a"])] "g" "a" = [("g", ["a"])] ∧
    lookupGroup (wsConnections_unsubscribe [("g", ["a", "a"])] "g" "a") "g" =
      some ["a"] := by
  have h : wsConnections_unsubscribe [("g", ["a", "a"])] "g" "a" = [("g", ["a"])] := by
    simp [wsConnections_unsubscribe, unsubscribeLoop, lookupGroup, setGroup]
  exact ⟨h, by rw [h]; rfl⟩

/-- Claim C2 as amended: the WsClients registry of api/ws_clients.rs does
satisfy the claim. For every registry state, group and uid, one call of
remove deletes every handle of that group whose uid matches (clones in any
positions included), drops the group entry exactly when the remaining set is
empty, and leaves every other group unchanged. The older main.rs
WebSocketConnections.unsubscribe does not satisfy it, per the
counterexample. -/
theorem C2_wsClients_remove_correct (m : Registry) (g uid : String) :
    (∀ g', ¬ (g' = g) →
      lookupGroup (wsClients_remove m g uid) g' = lookupGroup m g') ∧
    lookupGroup (wsClients_remove m g uid) g =
      (match lookupGroup m g with
       | none => none
       | some hs =>
           let hs' := hs.filter (fun h => ¬ (h = uid))
           if hs' = [] then none else some hs') := by
  cases hm : lookupGroup m g with
  | none =>
      unfold wsClients_remove
      rw [hm]
      exact ⟨fun g' _ => rfl, hm⟩
  | some hs =>
      unfold wsClients_remove
      rw [hm]
      dsimp only
      rw [wsClientsRemoveLoop_eq_filter]
      by_cases hempty : hs.filter (fun h => ¬ (h = uid)) = []
      · have hcond : (hs.filter (fun h => ¬ (h = uid))).length = 0 := by
          rw [hempty]; rfl
        rw [if_pos hcond, if_pos hempty]
        exact ⟨fun g' hg' => lookupGroup_eraseGroup_ne m g g' hg',
          lookupGroup_eraseGroup_self m g⟩
      · have hcond : ¬ ((hs.filter (fun h => ¬ (h = uid))).length = 0) := by
          simpa [List.length_eq_zero] using hempty
        rw [if_neg hcond, if_neg hempty]
        exact ⟨fun g' hg' => lookupGroup_setGroup_ne m g _ g' hg',
          lookupGroup_setGroup_self m g _ hs hm⟩

/-- Witness for the amended claim C2 at a concrete registry: uid a has two
adjacent clones in group g plus a handle b, and group h is untouched while
the clones are both removed. -/
theorem C2_wsClients_remove_witness :
    lookupGroup
        (wsClients_remove [("g", ["a", "a", "b"]), ("h", ["c"])] "g" "a") "h" =
      lookupGroup [("g", ["a", "a", "b"]), ("h", ["c"])] "h" ∧
    lookupGroup
        (wsClients_remove [("g", ["a", "a", "b"]), ("h", ["c"])] "g" "a") "g" =
      some ["b"] :=
  ⟨(C2_wsClients_remove_correct [("g", ["a", "a", "b"]), ("h", ["c"])] "g" "a").1
      "h" (by decide),
    ((C2_wsClients_remove_correct [("g", ["a", "a", "b"]), ("h", ["c"])] "g" "a").2).trans
      (by rfl)⟩

/-- Claim C6: ownership gate. Whenever the fetched task exists but its
owning group differs from the caller-supplied group, the dispatch handler
notifies the requesting session of the group with the permission error
message, writes no worker frame, broadcasts nothing, and leaves the world
(the task store included) unchanged. -/
theorem C6_ownership_gate (w : World) (task_group key : String)
    (inst : BackgroundRemoverTask)
    (hfetch : fetchTask w.db key = some inst)
    (hgroup : ¬ (inst.task_group = task_group)) :
    handle_process_image_command w task_group key =
      (w, { dbReads := [key], callerMsgs := [permissionErrorMsg] }) := by
  unfold handle_process_image_command
  rw [hfetch]
  dsimp only
  rw [if_pos hgroup]

/-- Witness for claim C6: dispatch for the sample task owned by group G1,
invoked with the distinct group G2. -/
theorem C6_ownership_gate_witness :
    handle_process_image_command sampleWorld G2 U1 =
      (sampleWorld, { dbReads := [U1], callerMsgs := [permissionErrorMsg] }) :=
  C6_ownership_gate sampleWorld G2 U1 sampleTask rfl (by decide)

/-- Claim C5: idempotent notification. With the hard-reprocess override off
and the stored processing flag set (the state the spec calls processing
already completed), dispatch writes zero worker frames, immediately answers
the requesting session of the group with the result message carrying the
serialized current task, changes no state, and a second consecutive call
returns the identical output; the dispatch condition is literally the
claimed formula. -/
theorem C5_idempotent_notification (w : World) (task_group key : String)
    (inst : BackgroundRemoverTask) (ser : JVal)
    (hfetch : fetchTask w.db key = some inst)
    (hgroup : inst.task_group = task_group)
    (hhard : isProcessHard w.env = false)
    (hdone : inst.processing = some true)
    (hser : serializeTask w.env inst = Except.ok ser) :
    needsProcessing w.env inst =
      (isProcessHard w.env || !(inst.processing.getD false)) ∧
    handle_process_image_command w task_group key =
      (w, { dbReads := [key], callerMsgs := [resultMsg ser] }) ∧
    handle_process_image_command
        (handle_process_image_command w task_group key).1 task_group key =
      (w, { dbReads := [key], callerMsgs := [resultMsg ser] }) := by
  have hnp : needsProcessing w.env inst = false := by
    unfold needsProcessing
    rw [hhard, hdone]
    rfl
  have hmain : handle_process_image_command w task_group key =
      (w, { dbReads := [key], callerMsgs := [resultMsg ser] }) := by
    unfold handle_process_image_command
    rw [hfetch]
    simp only [hgroup, hnp, hser]
    simp
  refine ⟨rfl, hmain, ?_⟩
  rw [hmain]
  exact hmain

/-- Witness for claim C5 at the sample world whose task already carries the
processing flag. -/
theorem C5_idempotent_notification_witness :
    handle_process_image_command processedWorld G1 U1 =
      (processedWorld,
        { dbReads := [U1],
          callerMsgs :=
            [resultMsg (serializedView "example.com"
              { sampleTask with processing := some true })] }) :=
  (C5_idempotent_notification processedWorld G1 U1
      { sampleTask with processing := some true }
      (serializedView "example.com" { sampleTask with processing := some true })
      rfl rfl rfl rfl
      (serializeTask_ok processedWorld.env "example.com"
        { sampleTask with processing := some true } rfl)).2.1

/-- Claim C9: sending while no transport is installed. The connection
manager send returns the not-connected error with zero frames written, and
so does send_remove_task once its earlier filename extraction and file read
succeed; neither queues anything nor changes any state (both are pure
functions of their inputs returning only the error). -/
theorem C9_send_not_connected (files : List PFile) (message : JVal)
    (fs : List (List String × Bytes)) (taskId : String) (now : Int)
    (filePath : List String) (filename : String) (fileBytes : Bytes)
    (hname : filePath.getLast? = some filename)
    (hread : readFsFile fs filePath = some fileBytes) :
    bpClientSend none files message =
      ([], Except.error "BP Request client not connected to server.") ∧
    sendRemoveTask none fs taskId now filePath =
      ([], Except.error "BP request client not connected to BP Server") := by
  refine ⟨rfl, ?_⟩
  unfold sendRemoveTask
  rw [hname, hread]

/-- Witness for claim C9 at a concrete frame and a readable file. -/
theorem C9_send_not_connected_witness :
    bpClientSend none [PFile.mk "original.jpg" [7]] (JVal.str "payload") =
      ([], Except.error "BP Request client not connected to server.") ∧
    sendRemoveTask none [(["media", "img.jpg"], [7])] U1 0 ["media", "img.jpg"] =
      ([], Except.error "BP request client not connected to BP Server") :=
  C9_send_not_connected [PFile.mk "original.jpg" [7]] (JVal.str "payload")
    [(["media", "img.jpg"], [7])] U1 0 ["media", "img.jpg"] "img.jpg" [7] rfl rfl

/-- Claim C10: silent drop of key-less client messages. For every websocket
text message that parsed as JSON but whose key field is absent or not a
string, the handler returns with no reply, no task fetch and no state
change. -/
theorem C10_silent_drop (w : World) (task_group : String) (v : JVal)
    (hkey : ((v.get "key").bind JVal.asStr) = none) :
    handle_ws_received_message w task_group (some v) = (w, {}) := by
  cases hv : v.get "key" with
  | none => simp [handle_ws_received_message, hv]
  | some kv =>
      have hks : kv.asStr = none := by
        rw [hv] at hkey
        simpa using hkey
      simp [handle_ws_received_message, hv, hks]

/-- Witness for claim C10: a JSON message whose key field is a number. -/
theorem C10_silent_drop_witness :
    handle_ws_received_message sampleWorld G1
        (some (JVal.obj [("key", JVal.num 5)])) = (sampleWorld, {}) :=
  C10_silent_drop sampleWorld G1 (JVal.obj [("key", JVal.num 5)]) rfl

/-- Claim C4 evaluation at the failing input: dispatch of the sample task in
a world whose transport cell is empty and whose 12-second window has not
elapsed. The transport send fails immediately with the not-connected error,
so zero frames reach the worker and no subscriber or caller is notified,
yet the handler persists processing = true for the task: the api/task.rs
send function drops the io result of the inner transport send (it only
prints it) and reports success, contradicting the claim that processing is
persisted only when the send succeeds. -/
theorem C4_send_failure_divergence :
    (handle_process_image_command disconnectedWorld G1 U1).2.workerFrames = [] ∧
    (handle_process_image_command disconnectedWorld G1 U1).2.callerMsgs = [] ∧
    (handle_process_image_command disconnectedWorld G1 U1).2.groupMsgs = [] ∧
    fetchTask (handle_process_image_command disconnectedWorld G1 U1).1.db U1 =
      some { sampleTask with processing := some true } ∧
    bpClientSend disconnectedWorld.streamHolder
        [PFile.mk "original.jpg" [7, 7, 7]]
        (JVal.obj [("task_id", JVal.str U1)]) =
      ([], Except.error "BP Request client not connected to server.") :=
  ⟨rfl, rfl, rfl, rfl, rfl⟩

/-- Claim C7 evaluation: the protocol-validation layer of
clients/bp_request_client/handlers.rs. A payload that is not valid JSON hits
the unwrap on line 25 and panics the handler task instead of being logged
and discarded; a JSON payload with a missing status, a missing task_id, or
a task_id that is no UUID is logged and discarded, reaching no sub-handler,
no subscriber and no store. -/
theorem C7_protocol_error_paths :
    handlers_handle_response_received_from_server none = ServerDispatch.panics ∧
    handlers_handle_response_received_from_server
        (some (JVal.obj [("task_id", JVal.str U1)])) = ServerDispatch.discard ∧
    handlers_handle_response_received_from_server
        (some (JVal.obj [("status", JVal.str "success")])) = ServerDispatch.discard ∧
    handlers_handle_response_received_from_server
        (some (JVal.obj
          [("status", JVal.str "failed"), ("task_id", JVal.str "not-a-uuid")])) =
      ServerDispatch.discard :=
  ⟨rfl, rfl, rfl, rfl⟩

/-- Claim C8 evaluation at a success result with three distinct attachments:
the file saver writes the transparent image from the first attachment and
the mask from the second, but the preview write also carries the first
attachment bytes [1] rather than the third attachment bytes [3]; the source
requires at least three attachments yet never reads the third (save_utils.rs
line 47 takes files[0] for the preview). -/
theorem C8_preview_uses_first_attachment :
    save_files_received_from_bp_server sampleEnv sampleTask
        [PFile.mk "a" [1], PFile.mk "b" [2], PFile.mk "c" [3]] false =
      Except.ok
        { transparentPath :=
            ["media", "background-remover", U1, "transparent", "img.png"],
          maskPath := ["media", "background-remover", U1, "mask", "img.png"],
          previewPath :=
            ["media", "background-remover", U1, "preview-transparent", "img.png"],
          writes :=
            [ (["media", "background-remover", U1, "transparent", "img.png"], [1]),
              (["media", "background-remover", U1, "mask", "img.png"], [2]),
              (["media", "background-remover", U1, "preview-transparent", "img.png"],
                [1]) ] } ∧
    ([1] : Bytes) ≠ [3] :=
  ⟨rfl, by decide⟩

/-- Claim C3 counterexample: a failed event for the sample task while its
processing flag is set. The handler leaves the flag set (it is cleared only
on the success path, not on failed outcomes) and broadcasts the worker
status, status_code and the worker-internal message boom verbatim instead
of a generic internal-error message, so both the always-cleared-on-terminal
part and the generic-broadcast part of the claim fail at this input. -/
theorem C3_failed_event_counterexample :
    handle_response_received_from_bp_server processedWorld [] failedMsg =
      (processedWorld,
        { dbReads := [U1],
          groupMsgs :=
            [ ("sub1", JVal.obj
                [ ("status", JVal.str "failed"),
                  ("status_code", JVal.str "bp_error"),
                  ("message", JVal.str "boom") ]),
              ("sub2", JVal.obj
                [ ("status", JVal.str "failed"),
                  ("status_code", JVal.str "bp_error"),
                  ("message", JVal.str "boom") ]) ] }) ∧
    fetchTask
        (handle_response_received_from_bp_server processedWorld [] failedMsg).1.db
        U1 = some { sampleTask with processing := some true } ∧
    (JVal.obj
        [ ("status", JVal.str "failed"),
          ("status_code", JVal.str "bp_error"),
          ("message", JVal.str "boom") ]).get "message" =
      some (JVal.str "boom") :=
  ⟨rfl, rfl, rfl⟩

/-- Claim C3 as amended: for every inbound worker event with a valid task_id
whose status is failed or any unrecognized value, the task.rs handler takes
one and the same code path, broadcasting the worker status, status_code and
message verbatim (not a generic internal-error message) to every subscriber
of the task group, and the world, the task store and the processing flag
are left untouched; the flag is cleared only on the success path, and a
progress_update status falls under the same verbatim echo. -/
theorem C3_nonsuccess_echoes_verbatim (w : World) (files : List PFile)
    (message : JVal) (bp : BPResponse) (inst : BackgroundRemoverTask)
    (hparse : parseBPResponse message = some bp)
    (hfetch : fetchTask w.db bp.task_id = some inst)
    (hstatus : ¬ (bp.status = "success")) :
    handle_response_received_from_bp_server w files message =
      (w,
        { dbReads := [bp.task_id],
          groupMsgs :=
            (getAllSubscribers w.subscribers inst.task_group).map
              (fun h => (h, echoMsg bp)) }) := by
  unfold handle_response_received_from_bp_server
  rw [hparse]
  dsimp only
  rw [hfetch]
  dsimp only
  rw [if_neg hstatus]

/-- Witness for the amended claim C3: an event with the unrecognized status
weird_value produces the same verbatim echo broadcast to both subscribers. -/
theorem C3_nonsuccess_echoes_verbatim_witness :
    handle_response_received_from_bp_server sampleWorld [] weirdMsg =
      (sampleWorld,
        { dbReads := [U1],
          groupMsgs :=
            [ ("sub1", JVal.obj
                [ ("status", JVal.str "weird_value"),
                  ("status_code", JVal.str "x"),
                  ("message", JVal.str "boom") ]),
              ("sub2", JVal.obj
                [ ("status", JVal.str "weird_value"),
                  ("status_code", JVal.str "x"),
                  ("message", JVal.str "boom") ]) ] }) :=
  C3_nonsuccess_echoes_verbatim sampleWorld [] weirdMsg
    { task_id := U1, status := "weird_value", status_code := "x",
      message := some "boom", timestamps := none }
    sampleTask rfl rfl (by decide)

/-- Fetch commutes with a row transformation that preserves keys. -/
theorem fetchTask_map_keyPres (db : List BackgroundRemoverTask) (k : String)
    (f : BackgroundRemoverTask → BackgroundRemoverTask)
    (hf : ∀ t, (f t).key = t.key) :
    fetchTask (db.map f) k = (fetchTask db k).map f := by
  induction db with
  | nil => rfl
  | cons t ts ih =>
      unfold fetchTask
      simp only [List.map_cons]
      by_cases h : t.key = k
      · rw [List.find?_cons_of_pos _ (by simp [hf t, h]),
          List.find?_cons_of_pos _ (by simp [h])]
        rfl
      · rw [List.find?_cons_of_neg _ (by simp [hf t, h]),
          List.find?_cons_of_neg _ (by simp [h])]
        exact ih

/-- Fetch after update_processing_state. -/
theorem fetchTask_updateProcessingState (db : List BackgroundRemoverTask)
    (key k : String) (b : Bool) :
    fetchTask (updateProcessingState db key b) k =
      (fetchTask db k).map
        (fun t => if t.key = key then { t with processing := some b } else t) :=
  fetchTask_map_keyPres db k _
    (fun t => by by_cases h : t.key = key <;> simp [h])

/-- Fetch after update_task. -/
theorem fetchTask_updateTaskRecord (db : List BackgroundRemoverTask)
    (u : UpdateBackgroundRemoverTask) (k : String) :
    fetchTask (updateTaskRecord db u) k =
      (fetchTask db k).map
        (fun t =>
          if t.key = u.key then
            { t with
              mask_image_path := some u.mask_image_path
              processed_image_path := some u.processed_image_path
              preview_processed_image_path := some u.preview_processed_image_path
              logs := u.logs }
          else t) :=
  fetchTask_map_keyPres db k _
    (fun t => by by_cases h : t.key = u.key <;> simp [h])

/-- With a configured media root, saving a success result with at least
three attachments always succeeds. -/
theorem saveOk (w : World) (inst : BackgroundRemoverTask)
    (f0 f1 f2 : PFile) (rest : List PFile) (isFake : Bool)
    (mediaRoot : String)
    (hmr : w.env.mediaRoot = some mediaRoot) :
    ∃ sr, save_files_received_from_bp_server w.env inst
        (f0 :: f1 :: f2 :: rest) isFake = Except.ok sr := by
  unfold save_files_received_from_bp_server
  rw [if_neg (by simp), if_neg (by simp [Nat.succ_le])]
  dsimp only
  rw [hmr]
  exact ⟨_, rfl⟩

/-- Success file handling: with media root and host configured and the
task present in the store, handle_files_received_from_bp_server persists the
three result paths, clears the processing flag, and broadcasts the result
message with the serialized fresh record to every subscriber of the task
group. -/
theorem handle_files_success (w : World) (inst : BackgroundRemoverTask)
    (f0 f1 f2 : PFile) (rest : List PFile) (isFake : Bool)
    (mediaRoot host : String)
    (hmr : w.env.mediaRoot = some mediaRoot)
    (hhost : w.env.host = some host)
    (hfetch : fetchTask w.db inst.key = some inst) :
    ∃ fresh ser,
      fetchTask
          (handle_files_received_from_bp_server w inst
            (f0 :: f1 :: f2 :: rest) isFake).1.db inst.key = some fresh ∧
      fresh.processing = some false ∧
      fresh.mask_image_path.isSome = true ∧
      fresh.processed_image_path.isSome = true ∧
      fresh.preview_processed_image_path.isSome = true ∧
      fresh.task_group = inst.task_group ∧
      serializeTask w.env fresh = Except.ok ser ∧
      (handle_files_received_from_bp_server w inst
          (f0 :: f1 :: f2 :: rest) isFake).2.groupMsgs =
        (getAllSubscribers w.subscribers inst.task_group).map
          (fun h => (h, resultMsg ser)) := by
  obtain ⟨sr, hsave⟩ := saveOk w inst f0 f1 f2 rest isFake mediaRoot hmr
  have hfetch2 :
      fetchTask
          (updateProcessingState
            (updateTaskRecord w.db
              { key := inst.key,
                mask_image_path :=
                  joinPath (relative_media_url_from_full_path
                    (pathComponents mediaRoot) sr.maskPath),
                processed_image_path :=
                  joinPath (relative_media_url_from_full_path
                    (pathComponents mediaRoot) sr.transparentPath),
                preview_processed_image_path :=
                  joinPath (relative_media_url_from_full_path
                    (pathComponents mediaRoot) sr.previewPath),
                logs := inst.logs })
            inst.key false) inst.key =
        some { inst with
          mask_image_path :=
            some (joinPath (relative_media_url_from_full_path
              (pathComponents mediaRoot) sr.maskPath)),
          processed_image_path :=
            some (joinPath (relative_media_url_from_full_path
              (pathComponents mediaRoot) sr.transparentPath)),
          preview_processed_image_path :=
            some (joinPath (relative_media_url_from_full_path
              (pathComponents mediaRoot) sr.previewPath)),
          logs := inst.logs,
          processing := some false } := by
    rw [fetchTask_updateProcessingState, fetchTask_updateTaskRecord, hfetch]
    simp
  unfold handle_files_received_from_bp_server
  simp only [hsave, hmr, hfetch2, serializeTask_ok w.env host _ hhost]
  exact ⟨_, _, rfl, rfl, rfl, rfl, rfl, rfl, rfl, rfl⟩

/-- Claim C1: full processing cycle. For a task owned by the calling group
with processing = false and no hard-reprocess override, dispatch reads the
source file and sends exactly one outbound frame whose payload is the
task_id object carrying the task key, with exactly one attachment holding
the source bytes, notifies nobody, and persists processing = true. A later
inbound success event for that key (with the three result attachments)
makes processing false again, sets the three result paths, and broadcasts
the success result envelope with the serialized task to every subscriber of
the owning group. -/
theorem C1_full_processing_cycle (w : World) (task_group key : String)
    (inst : BackgroundRemoverTask) (buffer : Bytes) (mediaRoot host : String)
    (hfetch : fetchTask w.db key = some inst)
    (hgroup : inst.task_group = task_group)
    (hhard : isProcessHard w.env = false)
    (hproc : inst.processing.getD false = false)
    (hmr : w.env.mediaRoot = some mediaRoot)
    (hhost : w.env.host = some host)
    (hread : readFsFile w.fsFiles
        (file_path_from_relative_url (pathComponents mediaRoot)
          (pathComponents inst.original_image_path)) = some buffer)
    (hconn : w.streamHolder = some ())
    (htime : w.sendTimedOut = false) :
    (handle_process_image_command w task_group key).2.workerFrames =
      [Frame.mk [PFile.mk "original.jpg" buffer]
        (JVal.obj [("task_id", JVal.str key)])] ∧
    (handle_process_image_command w task_group key).2.callerMsgs = [] ∧
    (handle_process_image_command w task_group key).2.groupMsgs = [] ∧
    fetchTask (handle_process_image_command w task_group key).1.db key =
      some { inst with processing := some true } ∧
    (∀ (message : JVal) (bp : BPResponse) (f0 f1 f2 : PFile)
        (rest : List PFile),
      parseBPResponse message = some bp →
      bp.status = "success" →
      bp.task_id = key →
      ∃ fresh ser,
        fetchTask
            (handle_response_received_from_bp_server
              (handle_process_image_command w task_group key).1
              (f0 :: f1 :: f2 :: rest) message).1.db key = some fresh ∧
        fresh.processing = some false ∧
        fresh.mask_image_path.isSome = true ∧
        fresh.processed_image_path.isSome = true ∧
        fresh.preview_processed_image_path.isSome = true ∧
        serializeTask w.env fresh = Except.ok ser ∧
        (handle_response_received_from_bp_server
            (handle_process_image_command w task_group key).1
            (f0 :: f1 :: f2 :: rest) message).2.groupMsgs =
          (getAllSubscribers w.subscribers task_group).map
            (fun h => (h, resultMsg ser))) := by
  have hkey : inst.key = key := by simpa using List.find?_some hfetch
  subst hkey
  subst hgroup
  have hnp : needsProcessing w.env inst = true := by
    unfold needsProcessing
    rw [hhard, hproc]
    rfl
  have hr1 : handle_process_image_command w inst.task_group inst.key =
      ({ w with db := updateProcessingState w.db inst.key true },
        { workerFrames := [Frame.mk [PFile.mk "original.jpg" buffer]
            (JVal.obj [("task_id", JVal.str inst.key)])],
          dbReads := [inst.key] }) := by
    unfold handle_process_image_command taskSend bpClientSend
    simp only [hfetch, hnp, hmr, hread, hconn, htime]
    simp
  have hfetch1 : fetchTask (updateProcessingState w.db inst.key true) inst.key =
      some { inst with processing := some true } := by
    rw [fetchTask_updateProcessingState, hfetch]
    simp
  rw [hr1]
  refine ⟨rfl, rfl, rfl, hfetch1, ?_⟩
  intro message bp f0 f1 f2 rest hparse hstat htid
  have hfetchw1 :
      fetchTask (updateProcessingState w.db inst.key true) bp.task_id =
        some { inst with processing := some true } := by
    rw [htid]
    exact hfetch1
  obtain ⟨fresh, ser, h1, h2, h3, h4, h5, h6, h7, h8⟩ :=
    handle_files_success
      { w with db := updateProcessingState w.db inst.key true }
      { inst with processing := some true } f0 f1 f2 rest
      (bp.status_code = "fake_process_completed") mediaRoot host hmr hhost
      hfetch1
  unfold handle_response_received_from_bp_server
  simp only [hparse, hfetchw1, hstat, eq_self_iff_true, if_true]
  exact ⟨fresh, ser, h1, h2, h3, h4, h5, h7, h8⟩

/-- Witness for claim C1: the full cycle run on the sample world, checking
the outbound frame, the cleared flag and the set mask path. -/
theorem C1_full_processing_cycle_witness :
    (handle_process_image_command sampleWorld G1 U1).2.workerFrames =
      [Frame.mk [PFile.mk "original.jpg" [7, 7, 7]]
        (JVal.obj [("task_id", JVal.str U1)])] ∧
    (fetchTask
        (handle_response_received_from_bp_server
          (handle_process_image_command sampleWorld G1 U1).1
          [PFile.mk "p" [1], PFile.mk "m" [2], PFile.mk "v" [3]]
          successMsg).1.db U1).map (fun t => t.processing) =
      some (some false) ∧
    (fetchTask
        (handle_response_received_from_bp_server
          (handle_process_image_command sampleWorld G1 U1).1
          [PFile.mk "p" [1], PFile.mk "m" [2], PFile.mk "v" [3]]
          successMsg).1.db U1).map (fun t => t.mask_image_path.isSome) =
      some true := by
  have h := C1_full_processing_cycle sampleWorld G1 U1 sampleTask [7, 7, 7]
    "media" "example.com" rfl rfl rfl rfl rfl rfl rfl rfl rfl
  obtain ⟨fresh, ser, h1, h2, h3, h4, h5, h6, h7⟩ :=
    h.2.2.2.2 successMsg
      { task_id := U1, status := "success", status_code := "done",
        message := none, timestamps := some (JVal.obj []) }
      (PFile.mk "p" [1]) (PFile.mk "m" [2]) (PFile.mk "v" [3]) [] rfl rfl rfl
  refine ⟨h.1, ?_, ?_⟩
  · rw [h1]
    simp [h2]
  · rw [h1]
    simp [h3]
